import Mathlib

/-!
# Verification of the wallpaper-symmetry pattern engine (`wallpaper.py`)

Shallow embedding of the deterministic pattern generator: the seeded
linear-congruential RNG (`DeterministicRNG`), the glyph palette builder
(`_select_unicode_chars`), the per-group rule table (`_set_rules`), the
rasterizer (`draw_pattern` with `_transform_to_canvas` and `_jitter`) and the
text overlay (`embed_poem`).

Python integers are modelled as `ℤ` (Python `%` on a positive modulus agrees
with `Int.emod`, and `//` with `Int.fdiv`).  Python floats are modelled as `ℚ`;
the transcendental library functions `math.pi`, `math.cos`, `math.sin`,
`math.sqrt` and the predicate `unicodedata.category(chr cp)[0] == 'C'` are not
computable over `ℚ`, so they are passed in as an explicit interpretation
record `Interp`.  All theorems below quantify over the interpretation, so they
hold for any (in particular the floating-point) reading of those functions.
Python strings are modelled as `String`; a canvas cell holds whatever string
the program wrote there (the source file's curated glyph literals are strings
of length 2 and 3, see `glitch_chars`).
-/

/-- Truncation of a rational toward zero, the behaviour of Python `int()` on a
float (`int(2.5) = 2`, `int(-2.5) = -2`). -/
def rat_trunc (q : ℚ) : ℤ :=
  if 0 ≤ q then ⌊q⌋ else -⌊-q⌋

/-- The seeded linear-congruential generator of `wallpaper.py`.  The constants
`a = 1664525`, `c = 1013904223`, `m = 982451497` are fixed in `__init__`; the
mutable state is the single integer register `seed`. -/
structure DeterministicRNG where
  seed : ℤ
  deriving DecidableEq

/-- `random()`: seed ← (a·seed + c) mod m, returning the new seed.  Mutation of
`self.seed` is modelled by returning the updated register alongside the
result. -/
def DeterministicRNG.random (r : DeterministicRNG) : ℤ × DeterministicRNG :=
  let s := (1664525 * r.seed + 1013904223) % 982451497
  (s, ⟨s⟩)

/-- `random_int(spread)`: a random integer in `[0, spread)`; returns 0 without
drawing when `spread <= 0`. -/
def DeterministicRNG.random_int (r : DeterministicRNG) (spread : ℤ) : ℤ × DeterministicRNG :=
  if spread ≤ 0 then (0, r)
  else
    let p := r.random
    (p.1 % spread, p.2)

/-- `random_range(min_val, max_val)`: a random integer from min to max
inclusive. -/
def DeterministicRNG.random_range (r : DeterministicRNG) (min_val max_val : ℤ) :
    ℤ × DeterministicRNG :=
  let p := r.random_int (max_val - min_val + 1)
  (min_val + p.1, p.2)

/-- `random_float()`: `random() / m`, in `[0, 1)`. -/
def DeterministicRNG.random_float (r : DeterministicRNG) : ℚ × DeterministicRNG :=
  let p := r.random
  ((p.1 : ℚ) / 982451497, p.2)

/-- `random_float_range(min_val, max_val)`. -/
def DeterministicRNG.random_float_range (r : DeterministicRNG) (min_val max_val : ℚ) :
    ℚ × DeterministicRNG :=
  let p := r.random_float
  (min_val + (max_val - min_val) * p.1, p.2)

/-- `pick(array)`: a random element of the list, or `None` (here `none`) for an
empty list. -/
def DeterministicRNG.pick {α : Type} (r : DeterministicRNG) (array : List α) :
    Option α × DeterministicRNG :=
  if array.isEmpty then (none, r)
  else
    let p := r.random_int array.length
    (array[p.1.toNat]?, p.2)

/-- `pick` on a list known to be non-empty.  For a non-empty list the index
drawn by `random_int` is inside the list, so the option is always `some` and
the default `dflt` is never produced; it only makes the model total. -/
def DeterministicRNG.pickD {α : Type} (r : DeterministicRNG) (dflt : α) (array : List α) :
    α × DeterministicRNG :=
  let p := r.pick array
  (p.1.getD dflt, p.2)

/-- Interpretation of the non-rational library functions used by the engine:
`math.pi`, `math.cos`, `math.sin`, `math.sqrt`, and the Unicode predicate
`unicodedata.category(chr cp)[0] == 'C'` (general category is a Control
category).  Every theorem quantifies over this record. -/
structure Interp where
  pi : ℚ
  cos : ℚ → ℚ
  sin : ℚ → ℚ
  sqrt : ℚ → ℚ
  isControlCat : ℕ → Bool

/-- A concrete sample interpretation with rational stand-in values, used to
instantiate theorems at concrete inputs. -/
def interp0 : Interp :=
  { pi := 355 / 113
    cos := fun _ => 1 / 2
    sin := fun _ => 1 / 2
    sqrt := fun _ => 433 / 500
    isControlCat := fun _ => false }

/-- The 17 wallpaper group names, in source order (`GROUP_NAMES`). -/
def group_names : List String :=
  ["p1", "pm", "pmm", "pg", "cm", "pmg", "cmm", "pgg",
   "p2", "p3", "p3m1", "p31m", "p4", "p4m", "p4g", "p6", "p6m"]

/-- The curated "cursed/glitchy" glyph list of `_select_unicode_chars`, exactly
as the string literals appear in the source file.  Note: the source file holds
these literals in a corrupted encoding (UTF-8 bytes re-decoded as a legacy
code page), so each entry is a string of 2 or 3 characters, not a single
character. -/
def glitch_chars : List String :=
  [
    "тЦИ", "тЦУ", "тЦТ", "тЦС", "тЦА", "тЦД", "тЦМ", "тЦР",
    "тЦа", "тЦб", "тЦк", "тЦл", "тЦм", "тЦн", "тЦо", "тЦп",
    "тЦ░", "тЦ▒", "тЦ▓", "тЦ│", "тЦ┤", "тЦ╡", "тЦ╢", "тЦ╖",
    "тЦ╕", "тЦ╣", "тЦ║", "тЦ╗", "тЦ╝", "тЦ╜", "тЦ╛", "тЦ┐",
    "тЧА", "тЧБ", "тЧВ", "тЧГ", "тЧД", "тЧЕ", "тЧЖ", "тЧЗ",
    "тЧИ", "тЧЙ", "тЧК", "тЧЛ", "тЧМ", "тЧН", "тЧО", "тЧП",
    "тЧР", "тЧС", "тЧТ", "тЧУ", "тЧФ", "тЧХ", "тЧЦ", "тЧЧ",
    "тЧШ", "тЧЩ", "тЧЪ", "тЧЫ", "тЧЬ", "тЧЭ", "тЧЮ", "тЧЯ",
    "тЧа", "тЧб", "тЧв", "тЧг", "тЧд", "тЧе", "тЧж", "тЧз",
    "тЧи", "тЧй", "тЧк", "тЧл", "тЧм", "тЧн", "тЧо", "тЧп",
    "тФВ", "тФГ", "тФД", "тФЕ", "тФЖ", "тФЗ", "тФИ", "тФЙ",
    "тФК", "тФЛ", "тФМ", "тФН", "тФО", "тФП", "тФР", "тФС",
    "тФТ", "тФУ", "тФФ", "тФХ", "тФЦ", "тФЧ", "тФШ", "тФЩ",
    "тФЪ", "тФЫ", "тФЬ", "тФЭ", "тФЮ", "тФЯ", "тФа", "тФб",
    "тФв", "тФг", "тФд", "тФе", "тФж", "тФз", "тФи", "тФй",
    "тФк", "тФл", "тФм", "тФн", "тФо", "тФп", "тФ░", "тФ▒",
    "тФ▓", "тФ│", "тФ┤", "тФ╡", "тФ╢", "тФ╖", "тФ╕", "тФ╣",
    "тФ║", "тФ╗", "тФ╝", "тФ╜", "тФ╛", "тФ┐", "тХА", "тХБ",
    "тХВ", "тХГ", "тХД", "тХЕ", "тХЖ", "тХЗ", "тХИ", "тХЙ",
    "тХК", "тХЛ", "тХМ", "тХН", "тХО", "тХП", "тХР", "тХС",
    "тХТ", "тХУ", "тХФ", "тХХ", "тХЦ", "тХЧ", "тХШ", "тХЩ",
    "тХЪ", "тХЫ", "тХЬ", "тХЭ", "тХЮ", "тХЯ", "тХа", "тХб",
    "тХв", "тХг", "тХд", "тХе", "тХж", "тХз", "тХи", "тХй",
    "тХк", "тХл", "тХм", "тХн", "тХо", "тХп", "тХ░", "тХ▒",
    "тХ▓", "тХ│", "тХ┤", "тХ╡", "тХ╢", "тХ╖", "тХ╕", "тХ╣",
    "тХ║", "тХ╗", "тХ╝", "тХ╜", "тХ╛", "тХ┐", "тОХ", "тМз",
    "тМР", "┬м", "┬ж", "┬п", "тА╛", "тО║", "тО╗", "тО╝",
    "тО╜", "тАХ", "тОп", "тО░", "тО▒"
  ]

/-- The nine priority Unicode block ranges of `_select_unicode_chars`, in
dict-insertion order. -/
def priority_blocks : List (String × ℤ × ℤ) :=
  [("Box Drawing", 0x2500, 0x257F),
   ("Block Elements", 0x2580, 0x259F),
   ("Braille Patterns", 0x2800, 0x28FF),
   ("CJK Symbols and Punctuation", 0x3000, 0x303F),
   ("Geometric Shapes", 0x25A0, 0x25FF),
   ("Mathematical Operators", 0x2200, 0x22FF),
   ("Miscellaneous Technical", 0x2300, 0x23FF),
   ("Arrows", 0x2190, 0x21FF),
   ("Miscellaneous Symbols", 0x2600, 0x26FF)]

/-- `_select_unicode_chars(count)`: the first `count // 2` entries are picks
from the curated list; the rest pick a priority block, then a code point in a
window of at most 50 positions from the block start, fall back to a curated
pick when `chr` fails (modelled as the code point lying outside Unicode) or
when the character's general category is a Control category, and otherwise
keep the character.  `chr cp` is modelled as `Char.ofNat`; the reachable block
windows contain no surrogates, so the two agree on every reachable code
point. -/
def select_unicode_chars (interp : Interp) (count : ℕ) (r : DeterministicRNG) :
    List String × DeterministicRNG :=
  let s1 := (List.range (count / 2)).foldl
    (fun st _ =>
      let g := st.2.pickD "тЦИ" glitch_chars
      (st.1 ++ [g.1], g.2))
    (([] : List String), r)
  (List.range (count - s1.1.length)).foldl
    (fun st _ =>
      let b := st.2.pickD ("Box Drawing", 0x2500, 0x257F) priority_blocks
      let bstart := b.1.2.1
      let bstop := b.1.2.2
      let cp := b.2.random_range bstart (min bstop (bstart + 50))
      if cp.1 < 0 ∨ 0x110000 ≤ cp.1 then
        let g := cp.2.pickD "тЦИ" glitch_chars
        (st.1 ++ [g.1], g.2)
      else if interp.isControlCat cp.1.toNat then
        let g := cp.2.pickD "тЦИ" glitch_chars
        (st.1 ++ [g.1], g.2)
      else
        (st.1 ++ [String.singleton (Char.ofNat cp.1.toNat)], cp.2))
    s1

/-- The pattern generator state: canvas dimensions, RNG register, selected
group, base rotation, the rule fields set by `_set_rules`, the glyph palette
and the canvas.  A canvas cell holds the string written there (initially a
single space). -/
structure WallpaperPattern where
  width : ℕ
  height : ℕ
  rng : DeterministicRNG
  group : String
  base_rotation : ℚ
  x_spacing : ℚ
  y_spacing : ℚ
  polygon_sides : ℕ
  angle0 : ℚ
  rotation_offset : ℚ
  rotate_rule : ℚ
  row_rotate_rule : ℚ
  shear : ℚ
  x_flip : Bool
  y_flip : Bool
  y_flip_pairs : Bool
  y_flip_rows : Bool
  instances_per_step : ℕ
  mirror_instances : Bool
  pattern_chars : List String
  canvas : List (List String)

/-- `_set_rules(group)`: reset every rule field to its default, then apply the
group-specific overrides.  Each branch reads the default values (e.g. the
spacing 16) exactly in the order the source mutates them: where the source
assigns `y_spacing` from `x_spacing` after doubling it, the doubled value is
used here too. -/
def WallpaperPattern.set_rules (interp : Interp) (p : WallpaperPattern) (group : String) :
    WallpaperPattern :=
  let p := { p with
    polygon_sides := 4
    angle0 := interp.pi / 2
    x_spacing := (16 : ℚ)
    y_spacing := (16 : ℚ)
    rotation_offset := 0
    rotate_rule := 0
    row_rotate_rule := 0
    shear := 0
    x_flip := false
    y_flip := false
    y_flip_pairs := false
    y_flip_rows := false
    instances_per_step := 1
    mirror_instances := false }
  if group = "p1" then
    { p with y_spacing := interp.sqrt (3 / 4) * p.x_spacing, angle0 := interp.pi / 3,
             shear := 0.5, x_spacing := p.x_spacing * 0.5 }
  else if group = "pm" then
    { p with x_flip := true, x_spacing := p.x_spacing * 0.5 }
  else if group = "pmm" then
    { p with x_flip := true, y_flip_rows := true, x_spacing := p.x_spacing * 0.5 }
  else if group = "pg" then
    { p with y_flip := true, x_spacing := p.x_spacing * 0.5 }
  else if group = "pmg" then
    { p with x_flip := true, y_flip_pairs := true, x_spacing := p.x_spacing * 0.5 }
  else if group = "cmm" then
    { p with x_flip := true, y_flip_pairs := true, y_flip_rows := true,
             x_spacing := p.x_spacing * 0.5 }
  else if group = "pgg" then
    { p with row_rotate_rule := interp.pi, y_flip := true, x_spacing := p.x_spacing * 0.5 }
  else if group = "p2" then
    { p with y_spacing := interp.sqrt (3 / 4) * p.x_spacing, angle0 := interp.pi / 3,
             rotate_rule := interp.pi, shear := 0.5, x_spacing := p.x_spacing * 0.5 }
  else if group = "p4" then
    { p with x_spacing := p.x_spacing * 2, y_spacing := p.y_spacing * 2,
             instances_per_step := 4 }
  else if group = "p4m" then
    { p with polygon_sides := 3, angle0 := interp.pi / 4, x_spacing := p.x_spacing * 2,
             y_spacing := p.y_spacing * 2, instances_per_step := 4, mirror_instances := true }
  else if group = "p4g" then
    { p with rotate_rule := interp.pi / 2, x_spacing := p.x_spacing * 2,
             y_spacing := p.y_spacing * 2, shear := 1, instances_per_step := 2,
             mirror_instances := true }
  else if group = "cm" then
    { p with x_flip := true, shear := 1.0, x_spacing := p.x_spacing * 0.5 }
  else if group = "p3" then
    { p with rotation_offset := interp.pi / 6, angle0 := interp.pi * 2 / 3,
             x_spacing := p.x_spacing * 2, y_spacing := interp.sqrt (3 / 4) * (p.x_spacing * 2),
             shear := 0.5, instances_per_step := 3 }
  else if group = "p3m1" then
    { p with polygon_sides := 3, angle0 := interp.pi / 3, rotation_offset := interp.pi / 6,
             rotate_rule := interp.pi * 2 / 3, x_spacing := p.x_spacing * 2,
             y_spacing := interp.sqrt (3 / 4) * (p.x_spacing * 2), shear := 0.5,
             instances_per_step := 3, mirror_instances := true }
  else if group = "p31m" then
    { p with polygon_sides := 3, angle0 := interp.pi / 6, x_spacing := p.x_spacing * 2,
             y_spacing := interp.sqrt (3 / 4) * (p.x_spacing * 2), shear := 0.5,
             instances_per_step := 3, mirror_instances := true }
  else if group = "p6" then
    { p with polygon_sides := 3, angle0 := interp.pi / 6, x_spacing := p.x_spacing * 2,
             y_spacing := interp.sqrt (3 / 4) * (p.x_spacing * 2), shear := 0.5,
             instances_per_step := 6 }
  else if group = "p6m" then
    { p with polygon_sides := 3, angle0 := interp.pi / 6, x_spacing := p.x_spacing * 2,
             y_spacing := interp.sqrt (3 / 4) * (p.x_spacing * 2), shear := 0.5,
             instances_per_step := 6, mirror_instances := true }
  else p

/-- `_jitter(value, amount)`: `value - amount + 2 * amount * random_float()`. -/
def jitter (value amount : ℚ) (r : DeterministicRNG) : ℚ × DeterministicRNG :=
  let p := r.random_float
  (value - amount + 2 * amount * p.1, p.2)

/-- The overscan grid count of `draw_pattern`:
`int(self.height / spacing) + 2`.  Both the column count and the row count are
computed from the canvas height in the source. -/
def grid_count (height : ℕ) (spacing : ℚ) : ℤ :=
  rat_trunc ((height : ℚ) / spacing) + 2

/-- `_transform_to_canvas(x, y)`: rotate by the base rotation about the canvas
center, translate, truncate to integers (`int()`), and clamp into
`[0, width) × [0, height)`. -/
def WallpaperPattern.transform_to_canvas (interp : Interp) (p : WallpaperPattern) (x y : ℚ) :
    ℤ × ℤ :=
  let center_x : ℕ := p.width / 2
  let center_y : ℕ := p.height / 2
  let cos_rot := interp.cos p.base_rotation
  let sin_rot := interp.sin p.base_rotation
  let rot_x := x * cos_rot - y * sin_rot
  let rot_y := x * sin_rot + y * cos_rot
  let canvas_x := rat_trunc ((center_x : ℚ) + rot_x)
  let canvas_y := rat_trunc ((center_y : ℚ) + rot_y)
  (max 0 (min ((p.width : ℤ) - 1) canvas_x), max 0 (min ((p.height : ℤ) - 1) canvas_y))

/-- `self.canvas[y][x] = glyph` on the nested-list canvas. -/
def set_cell (canvas : List (List String)) (y x : ℕ) (glyph : String) : List (List String) :=
  canvas.set y ((canvas.getD y []).set x glyph)

/-- The threaded state of the inner rasterizer loops: the cell-local positions
`pos_x`/`pos_y` (which the source mutates across instance iterations), the RNG
register and the canvas. -/
structure DrawState where
  pos_x : ℚ
  pos_y : ℚ
  rng : DeterministicRNG
  canvas : List (List String)

/-- One iteration of the innermost loop of `draw_pattern` (one instance with
one mirror sign, the sign itself being unused by the source body): apply the
flip shifts to `pos_x`/`pos_y`, pick a glyph (defaulting to the block glyph on
`None`), rotate, flip, jitter, transform to canvas coordinates and stamp the
glyph if in bounds. -/
def draw_instance (interp : Interp) (p : WallpaperPattern) (chars : List String)
    (current_rotation : ℚ) (x y i : ℕ) (st : DrawState) : DrawState :=
  let x_flipped := p.x_flip && (x % 2 == 0)
  let pos_x := if x_flipped then st.pos_x + p.x_spacing else st.pos_x
  let y_flipped := (p.y_flip && (x % 2 == 0)) || (p.y_flip_pairs && ((x / 2) % 2 == 0)) ||
    (p.y_flip_rows && (y % 2 == 0))
  let pos_y := if y_flipped && p.y_flip_rows then st.pos_y + p.y_spacing else st.pos_y
  let g := st.rng.pick chars
  let glyph := g.1.getD "тЦИ"
  let rot : ℚ := (i : ℚ) * (2 * interp.pi / (p.instances_per_step : ℚ))
  let f :=
    if rot ≠ 0 ∨ current_rotation ≠ 0 then
      let total_rot := rot + current_rotation
      let cos_rot := interp.cos total_rot
      let sin_rot := interp.sin total_rot
      (pos_x * cos_rot - pos_y * sin_rot, pos_x * sin_rot + pos_y * cos_rot)
    else (pos_x, pos_y)
  let final_x := if x_flipped then -f.1 else f.1
  let final_y := if y_flipped then -f.2 else f.2
  let jx := jitter final_x 0.2 g.2
  let jy := jitter final_y 0.2 jx.2
  let c := p.transform_to_canvas interp jx.1 jy.1
  let canvas :=
    if 0 ≤ c.1 ∧ c.1 < (p.width : ℤ) ∧ 0 ≤ c.2 ∧ c.2 < (p.height : ℤ) then
      set_cell st.canvas c.2.toNat c.1.toNat glyph
    else st.canvas
  { pos_x := pos_x, pos_y := pos_y, rng := jy.2, canvas := canvas }

/-- One grid cell `(x, y)` of `draw_pattern`: compute the sheared base
position and the per-cell rotation, then run the instance loop (doubled by the
mirror list when `mirror_instances` is set). -/
def cell_run (interp : Interp) (p : WallpaperPattern) (chars : List String)
    (x_count y_count : ℤ) (y x : ℕ) (st : DeterministicRNG × List (List String)) :
    DeterministicRNG × List (List String) :=
  let pos_x := ((x : ℚ) - (x_count : ℚ) / 2 + ((y : ℚ) - (y_count : ℚ) / 2) * p.shear) *
    p.x_spacing
  let pos_y := ((y : ℚ) - (y_count : ℚ) / 2) * p.y_spacing
  let current_rotation := p.rotate_rule * (x : ℚ) + p.row_rotate_rule * (y : ℚ) +
    p.rotation_offset
  let flips : List ℤ := if p.mirror_instances then [-1, 1] else [1]
  let res := (List.range p.instances_per_step).foldl
    (fun s i => flips.foldl (fun s _flip => draw_instance interp p chars current_rotation x y i s) s)
    { pos_x := pos_x, pos_y := pos_y, rng := st.1, canvas := st.2 }
  (res.rng, res.canvas)

/-- `draw_pattern()`: clear the canvas, rebuild the palette if it is empty, and
stamp glyphs over the overscan grid of
`int(height / x_spacing) + 2` columns by `int(height / y_spacing) + 2` rows. -/
def WallpaperPattern.draw_pattern (interp : Interp) (p : WallpaperPattern) : WallpaperPattern :=
  let canvas0 := List.replicate p.height (List.replicate p.width " ")
  let cp := if p.pattern_chars.isEmpty then select_unicode_chars interp 100 p.rng
    else (p.pattern_chars, p.rng)
  let x_count := grid_count p.height p.x_spacing
  let y_count := grid_count p.height p.y_spacing
  let res := (List.range y_count.toNat).foldl
    (fun st y => (List.range x_count.toNat).foldl
      (fun st x => cell_run interp p cp.1 x_count y_count y x st) st)
    (cp.2, canvas0)
  { p with pattern_chars := cp.1, rng := res.1, canvas := res.2 }

/-- `not line.strip()`: the line contains no non-whitespace character. -/
def line_blank (line : String) : Bool :=
  line.data.all (fun c => c.isWhitespace)

/-- One step of the inner overlay write loop of `embed_poem`, for column `x`:
skip columns outside `[start_x, start_x + len(marked))`, otherwise write the
character `marked[x - start_x]` into the row. -/
def write_step (start_x : ℕ) (marked : List Char) (row : List String) (x : ℕ) :
    List String :=
  if x < start_x ∨ start_x + marked.length ≤ x then row
  else if x - start_x < marked.length then
    row.set x (String.singleton (marked.getD (x - start_x) ' '))
  else row

/-- The inner overlay write loop of `embed_poem`: `for x in range(width)`. -/
def write_row (width : ℕ) (row : List String) (start_x : ℕ) (marked : List Char) :
    List String :=
  (List.range width).foldl (write_step start_x marked) row

/-- The per-line loop of `embed_poem` over `enumerate(poem_lines)`: skip blank
lines, stop at the first line whose target row `(i+1)*spacing` falls outside
the canvas, otherwise wrap the line in the highlight delimiters and write it
into row `(i+1)*spacing` starting at column
`max(0, (width - len(line)) // 2)` computed from the undelimited line. -/
def embed_lines (width height spacing : ℕ) :
    ℕ → List String → List (List String) → List (List String)
  | _, [], canvas => canvas
  | i, line :: rest, canvas =>
    if line_blank line then embed_lines width height spacing (i + 1) rest canvas
    else
      let y := (i + 1) * spacing
      if height ≤ y then canvas
      else
        let start_x : ℤ := max 0 (Int.fdiv ((width : ℤ) - (line.length : ℤ)) 2)
        let marked := ("<poem>" ++ line ++ "</poem>" : String)
        let row := write_row width (canvas.getD y []) start_x.toNat marked.data
        embed_lines width height spacing (i + 1) rest (canvas.set y row)

/-- The selection loop of `embed_poem` when more than 5 lines are supplied:
`min(5, len(poem_lines))` picks, keeping a pick only when it is new and
non-blank.  `pick` never returns `none` here since the list is non-empty; the
`none` arm only makes the match total. -/
def select_overlay_lines (r : DeterministicRNG) (poem_lines : List String) :
    List String × DeterministicRNG :=
  (List.range (min 5 poem_lines.length)).foldl
    (fun st _ =>
      let p := st.2.pick poem_lines
      match p.1 with
      | some line =>
        if line ∉ st.1 ∧ line_blank line = false then (st.1 ++ [line], p.2) else (st.1, p.2)
      | none => (st.1, p.2))
    ([], r)

/-- `embed_poem(poem_lines)`: no-op on an empty list; select at most 5 lines
when more are supplied; compute the row spacing
`max(3, height // (len(lines) + 2))` and write each line via `embed_lines`. -/
def WallpaperPattern.embed_poem (p : WallpaperPattern) (poem_lines : List String) :
    WallpaperPattern :=
  if poem_lines.isEmpty then p
  else
    let sel := if 5 < poem_lines.length then select_overlay_lines p.rng poem_lines
      else (poem_lines, p.rng)
    let spacing := max 3 (p.height / (sel.1.length + 2))
    let canvas := embed_lines p.width p.height spacing 0 sel.1 p.canvas
    { p with rng := sel.2, canvas := canvas }

/-- `__init__(width, height, seed)` with an explicit seed: seed the RNG, pick a
group, draw the base rotation, build a 100-glyph palette, set the group rules
and initialize a blank canvas.  The RNG draws happen in exactly the source
order (group pick, base rotation, palette). -/
def WallpaperPattern.construct (interp : Interp) (width height : ℕ) (seed : ℤ) :
    WallpaperPattern :=
  let g := (⟨seed⟩ : DeterministicRNG).pickD "p1" group_names
  let b := g.2.random_float
  let base_rotation := b.1 * 2 * interp.pi
  let pc := select_unicode_chars interp 100 b.2
  let p0 : WallpaperPattern :=
    { width := width
      height := height
      rng := pc.2
      group := g.1
      base_rotation := base_rotation
      x_spacing := 16
      y_spacing := 16
      polygon_sides := 4
      angle0 := interp.pi / 2
      rotation_offset := 0
      rotate_rule := 0
      row_rotate_rule := 0
      shear := 0
      x_flip := false
      y_flip := false
      y_flip_pairs := false
      y_flip_rows := false
      instances_per_step := 1
      mirror_instances := false
      pattern_chars := pc.1
      canvas := List.replicate height (List.replicate width " ") }
  p0.set_rules interp g.1

/-- The core calls a collaborator may issue after construction: `set_group`
(assign the group and re-run `_set_rules`), `draw_pattern`, and `embed_poem`
with an explicit list of lines. -/
inductive PCall where
  | set_group (g : String)
  | draw
  | embed (lines : List String)

/-- Execute one call against the pattern state. -/
def run_call (interp : Interp) (p : WallpaperPattern) : PCall → WallpaperPattern
  | PCall.set_group g => { p.set_rules interp g with group := g }
  | PCall.draw => p.draw_pattern interp
  | PCall.embed lines => p.embed_poem lines

/-- Execute a sequence of calls in order. -/
def run_seq (interp : Interp) (calls : List PCall) (p : WallpaperPattern) : WallpaperPattern :=
  calls.foldl (run_call interp) p

/-- `to_text()`: join every row, then join the rows with newlines. -/
def WallpaperPattern.to_text (p : WallpaperPattern) : String :=
  String.intercalate "\n" (p.canvas.map (fun row => String.join row))

/-- A concrete 20×10 pattern state with a blank canvas and default rule
fields, used to instantiate theorems at concrete inputs. -/
def wp0 : WallpaperPattern :=
  { width := 20
    height := 10
    rng := ⟨1⟩
    group := "p1"
    base_rotation := 0
    x_spacing := 16
    y_spacing := 16
    polygon_sides := 4
    angle0 := 1
    rotation_offset := 0
    rotate_rule := 0
    row_rotate_rule := 0
    shear := 0
    x_flip := false
    y_flip := false
    y_flip_pairs := false
    y_flip_rows := false
    instances_per_step := 1
    mirror_instances := false
    pattern_chars := []
    canvas := List.replicate 10 (List.replicate 20 " ") }

theorem write_step_length (start_x : ℕ) (marked : List Char) (row : List String) (x : ℕ) :
    (write_step start_x marked row x).length = row.length := by
  unfold write_step
  split_ifs <;> simp

theorem foldl_write_step_getD (start_x : ℕ) (marked : List Char) (w : ℕ) :
    ∀ (l : List ℕ), (∀ a ∈ l, a < w) → ∀ (row : List String), row.length = w →
      ∀ j : ℕ, j < w →
      ((l.foldl (write_step start_x marked) row).getD j " ") =
        if j ∈ l ∧ start_x ≤ j ∧ j < start_x + marked.length
        then String.singleton (marked.getD (j - start_x) ' ')
        else row.getD j " " := by
  intro l
  induction l with
  | nil =>
    intro _ row _ j _
    simp
  | cons a t ih =>
    intro hl row hrow j hj
    rw [List.foldl_cons]
    have hlen' : (write_step start_x marked row a).length = w := by
      rw [write_step_length]; exact hrow
    rw [ih (fun b hb => hl b (List.mem_cons_of_mem a hb)) _ hlen' j hj]
    by_cases hjt : j ∈ t ∧ start_x ≤ j ∧ j < start_x + marked.length
    · rw [if_pos hjt, if_pos ⟨List.mem_cons_of_mem a hjt.1, hjt.2⟩]
    · rw [if_neg hjt]
      unfold write_step
      by_cases hja : j = a
      · subst hja
        by_cases hwin : start_x ≤ j ∧ j < start_x + marked.length
        · rw [if_neg (by omega), if_pos (by omega)]
          rw [if_pos ⟨List.mem_cons_self j t, hwin⟩]
          rw [List.getD_eq_getElem?_getD, List.getElem?_set, if_pos rfl,
            if_pos (by rw [hrow]; exact hj)]
          simp
        · rw [if_pos (by omega)]
          rw [if_neg (fun hc => hwin hc.2)]
      · have hmem : ¬(j ∈ a :: t ∧ start_x ≤ j ∧ j < start_x + marked.length) := by
          rintro ⟨hm, hwin⟩
          rcases List.mem_cons.mp hm with h1 | h1
          · exact hja h1
          · exact hjt ⟨h1, hwin⟩
        rw [if_neg hmem]
        by_cases hc1 : a < start_x ∨ start_x + marked.length ≤ a
        · rw [if_pos hc1]
        · rw [if_neg hc1, if_pos (by omega)]
          rw [List.getD_eq_getElem?_getD, List.getElem?_set, if_neg (fun hh => hja hh.symm),
            ← List.getD_eq_getElem?_getD]

theorem write_row_getD (w start_x : ℕ) (marked : List Char) (row : List String)
    (hrow : row.length = w) (j : ℕ) (hj : j < w) :
    (write_row w row start_x marked).getD j " " =
      if start_x ≤ j ∧ j < start_x + marked.length
      then String.singleton (marked.getD (j - start_x) ' ')
      else row.getD j " " := by
  unfold write_row
  rw [foldl_write_step_getD start_x marked w (List.range w)
    (fun a ha => List.mem_range.mp ha) row hrow j hj]
  by_cases hwin : start_x ≤ j ∧ j < start_x + marked.length
  · rw [if_pos ⟨List.mem_range.mpr hj, hwin⟩, if_pos hwin]
  · rw [if_neg (fun hc => hwin hc.2), if_neg hwin]

theorem foldl_length_step {β : Type}
    (f : List String × DeterministicRNG → β → List String × DeterministicRNG)
    (hf : ∀ st b, ((f st b).1).length = st.1.length + 1) (l : List β) :
    ∀ st : List String × DeterministicRNG,
      ((l.foldl f st).1).length = st.1.length + l.length := by
  induction l with
  | nil => intro st; simp
  | cons a t ih =>
    intro st
    rw [List.foldl_cons, ih, hf, List.length_cons]
    omega

/-- C1: For every width ≥ 1, height ≥ 1, explicit seed, chosen group, and fixed
sequence of calls (`set_group`, `draw_pattern`, `embed_poem` with the same line
lists), two runs of the pattern generator produce byte-identical canvas output:
`to_text` is a deterministic function of the initial seed and the call
sequence.  The model is parameterized only by the construction arguments and
the fixed interpretation of the math library, so equal seeds and equal call
sequences give equal output — there is no other entropy source. -/
theorem C1_output_deterministic (interp : Interp) (width height : ℕ) (seed1 seed2 : ℤ)
    (calls1 calls2 : List PCall) (hs : seed1 = seed2) (hc : calls1 = calls2) :
    (run_seq interp calls1 (WallpaperPattern.construct interp width height seed1)).to_text =
      (run_seq interp calls2 (WallpaperPattern.construct interp width height seed2)).to_text := by
  subst hs
  subst hc
  rfl

theorem C1_output_deterministic_witness : (5 : ℤ) = 5 ∧ ([PCall.draw] = [PCall.draw]) ∧
    (run_seq interp0 [PCall.draw] (WallpaperPattern.construct interp0 3 2 5)).to_text =
      (run_seq interp0 [PCall.draw] (WallpaperPattern.construct interp0 3 2 5)).to_text :=
  ⟨rfl, rfl, C1_output_deterministic interp0 3 2 5 5 [PCall.draw] [PCall.draw] rfl rfl⟩

/-- C2: For every width ≥ 1 and height ≥ 1 and every input point (hence for
every group, spacing, shear, rotation and jitter combination, since the point
ranges over all rationals and the trigonometric interpretation is arbitrary),
`_transform_to_canvas` clamps both output coordinates into
`[0, width) × [0, height)`, so no canvas write of `draw_pattern` is out of
range. -/
theorem C2_transform_to_canvas_in_bounds (interp : Interp) (p : WallpaperPattern) (x y : ℚ)
    (hw : 1 ≤ p.width) (hh : 1 ≤ p.height) :
    0 ≤ (p.transform_to_canvas interp x y).1 ∧
    (p.transform_to_canvas interp x y).1 < (p.width : ℤ) ∧
    0 ≤ (p.transform_to_canvas interp x y).2 ∧
    (p.transform_to_canvas interp x y).2 < (p.height : ℤ) := by
  unfold WallpaperPattern.transform_to_canvas
  dsimp only
  have hw' : (1 : ℤ) ≤ (p.width : ℤ) := by exact_mod_cast hw
  have hh' : (1 : ℤ) ≤ (p.height : ℤ) := by exact_mod_cast hh
  refine ⟨le_max_left _ _, ?_, le_max_left _ _, ?_⟩ <;> omega

theorem C2_transform_to_canvas_in_bounds_witness :
    1 ≤ wp0.width ∧ 1 ≤ wp0.height ∧
    (0 ≤ (wp0.transform_to_canvas interp0 1000 (-1000)).1 ∧
     (wp0.transform_to_canvas interp0 1000 (-1000)).1 < (wp0.width : ℤ) ∧
     0 ≤ (wp0.transform_to_canvas interp0 1000 (-1000)).2 ∧
     (wp0.transform_to_canvas interp0 1000 (-1000)).2 < (wp0.height : ℤ)) :=
  ⟨by decide, by decide,
    C2_transform_to_canvas_in_bounds interp0 wp0 1000 (-1000) (by decide) (by decide)⟩

/-- C3: The RNG step is seed' = (1664525·seed + 1013904223) mod 982451497 and
`random` returns the new seed; from seed 1234 the first draw is exactly
120573582, the literal value of (1664525·1234 + 1013904223) mod 982451497. -/
theorem C3_rng_step_formula (r : DeterministicRNG) :
    (r.random.1 = (1664525 * r.seed + 1013904223) % 982451497 ∧
      r.random.2.seed = r.random.1) ∧
    ((⟨1234⟩ : DeterministicRNG).random).1 = 120573582 ∧
    (1664525 * 1234 + 1013904223) % 982451497 = (120573582 : ℤ) :=
  ⟨⟨rfl, rfl⟩, by decide, by decide⟩

/-- C4 (counterexample): the claim "every RNG operation advances the seed
register by exactly one `next()` step per call, for all inputs including
degenerate ones" fails: `random_int 0` leaves the seed register untouched
(seed stays 1234), while one `next()` step from 1234 moves the register to
120573582. -/
theorem C4_degenerate_skips_draw :
    ((⟨1234⟩ : DeterministicRNG).random_int 0).2.seed = 1234 ∧
    ((⟨1234⟩ : DeterministicRNG).random).2.seed = 120573582 ∧
    (1234 : ℤ) ≠ 120573582 := by decide

/-- C4 (amended): every RNG operation other than `random` itself advances the
seed register by exactly one `next()` step per call on non-degenerate input
(`spread > 0` for `random_int`, `lo ≤ hi` for `random_range`, a non-empty list
for `pick`; `random_float` and `random_float_range` always); on degenerate
input (`spread ≤ 0`, `hi < lo`, the empty list) the register is left unchanged
— zero draws, not one. -/
theorem C4_one_step_per_draw (r : DeterministicRNG) :
    (∀ spread : ℤ, 0 < spread → (r.random_int spread).2 = r.random.2) ∧
    (∀ lo hi : ℤ, lo ≤ hi → (r.random_range lo hi).2 = r.random.2) ∧
    (r.random_float.2 = r.random.2) ∧
    (∀ lo hi : ℚ, (r.random_float_range lo hi).2 = r.random.2) ∧
    (∀ (α : Type) (l : List α), l ≠ [] → (r.pick l).2 = r.random.2) ∧
    (∀ spread : ℤ, spread ≤ 0 → (r.random_int spread).2 = r) ∧
    (∀ lo hi : ℤ, hi < lo → (r.random_range lo hi).2 = r) ∧
    (∀ α : Type, (r.pick ([] : List α)).2 = r) := by
  refine ⟨?_, ?_, rfl, fun _ _ => rfl, ?_, ?_, ?_, fun _ => rfl⟩
  · intro spread h
    unfold DeterministicRNG.random_int
    rw [if_neg (not_le.mpr h)]
  · intro lo hi h
    unfold DeterministicRNG.random_range DeterministicRNG.random_int
    rw [if_neg (by omega)]
  · intro α l h
    unfold DeterministicRNG.pick DeterministicRNG.random_int
    rw [if_neg (by simp [h]), if_neg (by have hlp := List.length_pos.mpr h; omega)]
  · intro spread h
    unfold DeterministicRNG.random_int
    rw [if_pos h]
  · intro lo hi h
    unfold DeterministicRNG.random_range DeterministicRNG.random_int
    rw [if_pos (by omega)]

theorem C4_one_step_per_draw_witness : (0 : ℤ) < 5 ∧
    ((⟨1234⟩ : DeterministicRNG).random_int 5).2 = (⟨1234⟩ : DeterministicRNG).random.2 :=
  ⟨by decide, (C4_one_step_per_draw ⟨1234⟩).1 5 (by decide)⟩

/-- C5 (counterexample): the claim that `draw_pattern` iterates
`ceil(height/x_spacing) + 2` grid columns fails at height 40, spacing 16: the
code computes `int(40/16) + 2 = 4` columns, while the ceiling formula gives
`3 + 2 = 5`. -/
theorem C5_ceil_formula_fails :
    grid_count 40 16 = 4 ∧ (⌈(40 : ℚ) / 16⌉ + 2 : ℤ) = 5 ∧
    grid_count 40 16 ≠ ⌈(40 : ℚ) / 16⌉ + 2 := by
  have h1 : ⌊(40 : ℚ) / 16⌋ = 2 := by
    rw [Int.floor_eq_iff]
    norm_num
  have h2 : ⌈(40 : ℚ) / 16⌉ = 3 := by
    rw [Int.ceil_eq_iff]
    norm_num
  have h3 : grid_count 40 16 = 4 := by
    unfold grid_count rat_trunc
    rw [if_pos (by norm_num)]
    push_cast
    rw [h1]
    decide
  refine ⟨h3, by rw [h2]; decide, by rw [h3, h2]; decide⟩

/-- C5 (amended): for every positive height and positive spacings,
`draw_pattern` iterates an overscan grid of `floor(height/x_spacing) + 2`
columns by `floor(height/y_spacing) + 2` rows (`int()` truncation, not
ceiling; both axes sized from the canvas height). -/
theorem C5_grid_count_floor (h : ℕ) (xs ys : ℚ) (hh : 0 < h) (hxs : 0 < xs) (hys : 0 < ys) :
    grid_count h xs = ⌊(h : ℚ) / xs⌋ + 2 ∧ grid_count h ys = ⌊(h : ℚ) / ys⌋ + 2 := by
  constructor <;>
  · unfold grid_count rat_trunc
    rw [if_pos (div_nonneg (by positivity) (le_of_lt (by assumption)))]

theorem C5_grid_count_floor_witness :
    0 < (40 : ℕ) ∧ 0 < (16 : ℚ) ∧ grid_count 40 16 = ⌊((40 : ℕ) : ℚ) / 16⌋ + 2 :=
  ⟨by decide, by norm_num, (C5_grid_count_floor 40 16 16 (by decide) (by norm_num) (by norm_num)).1⟩

/-- C6 (counterexample): the claim that the starting column of an overlay line
equals `max(0, (width - len(marked_line)) // 2)` (delimiter-inclusive length)
fails: on a blank 20×10 canvas with the line "ab", that formula gives column 2
(`len("<poem>ab</poem>") = 15`), but after `embed_poem` column 2 of the target
row is still blank and the written text begins at column 9. -/
theorem C6_marked_centering_fails :
    ((wp0.embed_poem ["ab"]).canvas.getD 3 []).getD 2 " " = " " ∧
    ((wp0.embed_poem ["ab"]).canvas.getD 3 []).getD 9 " " = "<" ∧
    max 0 (Int.fdiv ((wp0.width : ℤ) - (("<poem>" ++ "ab" ++ "</poem>" : String).length : ℤ)) 2)
      = 2 := by decide

/-- C6 (amended): for a non-blank overlay line written by `embed_poem`, the
starting column of the written text equals
`max(0, (width - len(line)) // 2)` computed from the original, undelimited
line; the delimiter-wrapped text `<poem>line</poem>` is then written
left-to-right from that column (truncated at the canvas width), and columns
before it keep their previous content. -/
theorem C6_start_col_unmarked_length (p : WallpaperPattern) (line : String)
    (hlen : p.canvas.length = p.height)
    (hrows : ∀ r ∈ p.canvas, r.length = p.width)
    (hblank : line_blank line = false)
    (hy : max 3 (p.height / 3) < p.height)
    (j : ℕ) (hj : j < p.width) :
    ((p.embed_poem [line]).canvas.getD (max 3 (p.height / 3)) []).getD j " " =
      if (max 0 (Int.fdiv ((p.width : ℤ) - (line.length : ℤ)) 2)).toNat ≤ j ∧
          j < (max 0 (Int.fdiv ((p.width : ℤ) - (line.length : ℤ)) 2)).toNat +
            ("<poem>" ++ line ++ "</poem>" : String).length
      then String.singleton (("<poem>" ++ line ++ "</poem>" : String).data.getD
        (j - (max 0 (Int.fdiv ((p.width : ℤ) - (line.length : ℤ)) 2)).toNat) ' ')
      else (p.canvas.getD (max 3 (p.height / 3)) []).getD j " " := by
  unfold WallpaperPattern.embed_poem
  rw [if_neg (by simp)]
  dsimp only
  rw [if_neg (by simp)]
  dsimp only
  simp only [List.length_cons, List.length_nil, Nat.zero_add]
  simp only [embed_lines, hblank]
  rw [if_neg (by decide)]
  simp only [Nat.zero_add, Nat.one_mul]
  rw [if_neg (not_le.mpr hy)]
  simp only [show (1 + 2 : ℕ) = 3 from rfl]
  have hyy : max 3 (p.height / 3) < p.canvas.length := by rw [hlen]; exact hy
  have hset : ∀ R : List String,
      (p.canvas.set (max 3 (p.height / 3)) R).getD (max 3 (p.height / 3)) [] = R := by
    intro R
    rw [List.getD_eq_getElem?_getD, List.getElem?_set, if_pos rfl, if_pos hyy]
    simp
  rw [hset]
  have hrow : (p.canvas.getD (max 3 (p.height / 3)) []).length = p.width := by
    rw [List.getD_eq_getElem _ _ hyy]
    exact hrows _ (List.getElem_mem hyy)
  exact write_row_getD p.width _ _ _ hrow j hj

theorem C6_start_col_unmarked_length_witness :
    line_blank "ab" = false ∧ max 3 (wp0.height / 3) < wp0.height ∧ (9 : ℕ) < wp0.width ∧
    ((wp0.embed_poem ["ab"]).canvas.getD (max 3 (wp0.height / 3)) []).getD 9 " " = "<" :=
  ⟨by decide, by decide, by decide,
    (C6_start_col_unmarked_length wp0 "ab" (by decide) (by decide) (by decide) (by decide) 9
      (by decide)).trans (by decide)⟩

/-- C7 (counterexample): the claim that after selecting p3 the rule record
holds `y_spacing = S·√(3/4)` with S the base spacing 16 fails: under the
sample interpretation (with `sqrt (3/4)` read as 433/500) the code's record
holds `y_spacing = 433/500 · 32 = 3464/125`, while the claimed value is
`16 · 433/500 = 1732/125`, and the two differ. -/
theorem C7_p3_y_spacing_fails :
    (wp0.set_rules interp0 "p3").y_spacing = 3464 / 125 ∧
    (16 : ℚ) * interp0.sqrt (3 / 4) = 1732 / 125 ∧
    (3464 / 125 : ℚ) ≠ 1732 / 125 := by
  refine ⟨?_, by norm_num [interp0], by norm_num⟩
  unfold WallpaperPattern.set_rules
  rw [if_neg (by decide), if_neg (by decide), if_neg (by decide), if_neg (by decide),
    if_neg (by decide), if_neg (by decide), if_neg (by decide), if_neg (by decide),
    if_neg (by decide), if_neg (by decide), if_neg (by decide), if_neg (by decide),
    if_pos rfl]
  show interp0.sqrt (3 / 4) * ((16 : ℚ) * 2) = 3464 / 125
  norm_num [interp0]

/-- C7 (amended): after selecting group p3 the rule record holds exactly:
4-sided polygon domain, rotation_offset = π/6, angle0 = 2π/3,
x-spacing = 2·S, y-spacing = √(3/4)·(2·S) (the square root factor is applied
to the already-doubled x-spacing, i.e. S·√3, not S·√(3/4)), shear = 1/2,
instances_per_step = 3, and every remaining rule field at its default. -/
theorem C7_p3_rules (interp : Interp) (p : WallpaperPattern) :
    (p.set_rules interp "p3").polygon_sides = 4 ∧
    (p.set_rules interp "p3").rotation_offset = interp.pi / 6 ∧
    (p.set_rules interp "p3").angle0 = interp.pi * 2 / 3 ∧
    (p.set_rules interp "p3").x_spacing = 2 * 16 ∧
    (p.set_rules interp "p3").y_spacing = interp.sqrt (3 / 4) * (2 * 16) ∧
    (p.set_rules interp "p3").shear = 1 / 2 ∧
    (p.set_rules interp "p3").instances_per_step = 3 ∧
    (p.set_rules interp "p3").rotate_rule = 0 ∧
    (p.set_rules interp "p3").row_rotate_rule = 0 ∧
    (p.set_rules interp "p3").x_flip = false ∧
    (p.set_rules interp "p3").y_flip = false ∧
    (p.set_rules interp "p3").y_flip_pairs = false ∧
    (p.set_rules interp "p3").y_flip_rows = false ∧
    (p.set_rules interp "p3").mirror_instances = false := by
  unfold WallpaperPattern.set_rules
  rw [if_neg (by decide), if_neg (by decide), if_neg (by decide), if_neg (by decide),
    if_neg (by decide), if_neg (by decide), if_neg (by decide), if_neg (by decide),
    if_neg (by decide), if_neg (by decide), if_neg (by decide), if_neg (by decide),
    if_pos rfl]
  refine ⟨rfl, rfl, rfl, ?_, ?_, ?_, rfl, rfl, rfl, rfl, rfl, rfl, rfl, rfl⟩
  · show (16 : ℚ) * 2 = 2 * 16
    ring
  · show interp.sqrt (3 / 4) * ((16 : ℚ) * 2) = interp.sqrt (3 / 4) * (2 * 16)
    ring
  · show (0.5 : ℚ) = 1 / 2
    norm_num

/-- C8: `random_int` returns 0 for every spread ≤ 0 (in particular for 0 and
-5) and `pick` applied to an empty list returns the `none` sentinel; both are
total functions, so neither raises on degenerate input. -/
theorem C8_degenerate_sentinels (r : DeterministicRNG) (spread : ℤ) (h : spread ≤ 0) :
    (r.random_int spread).1 = 0 ∧ ∀ α : Type, (r.pick ([] : List α)).1 = none := by
  constructor
  · unfold DeterministicRNG.random_int
    rw [if_pos h]
  · intro α
    rfl

theorem C8_degenerate_sentinels_witness :
    (-5 : ℤ) ≤ 0 ∧ ((⟨1234⟩ : DeterministicRNG).random_int (-5)).1 = 0 ∧
    ((⟨1234⟩ : DeterministicRNG).pick ([] : List ℕ)).1 = none :=
  ⟨by decide, (C8_degenerate_sentinels ⟨1234⟩ (-5) (by decide)).1,
    (C8_degenerate_sentinels ⟨1234⟩ (-5) (by decide)).2 ℕ⟩

/-- C9: for every requested size N and every RNG state and interpretation of
the Unicode category predicate (in particular one that classifies every drawn
code point as a Control category), the glyph palette builder returns a list of
exactly N glyphs: control-category and invalid code points are replaced by
picks from the curated list, every loop iteration appends exactly one glyph,
and the builder is a total function (it never raises). -/
theorem C9_palette_exact_size (interp : Interp) (count : ℕ) (r : DeterministicRNG) :
    (select_unicode_chars interp count r).1.length = count := by
  unfold select_unicode_chars
  rw [foldl_length_step]
  · rw [foldl_length_step]
    · simp
      omega
    · intro st b
      simp
  · intro st b
    dsimp only
    split
    · simp
    · split <;> simp

/-- C10 (code evaluated at the failing input): the glyph string literals of
the shipped source are not single characters — the default block glyph
substituted by `draw_pattern` is the 3-character string "тЦИ", and the first
palette entry built from seed 0 is the 3-character string "тЦМ" — so a canvas
cell stamped from them holds 3 characters and a `to_text` row exceeds the
canvas width, against the claim that each cell holds a single character. -/
theorem C10_glyph_strings_not_single_char :
    ("тЦИ" : String).length = 3 ∧
    ((select_unicode_chars interp0 10 ⟨0⟩).1.getD 0 " ").length = 3 := by
  constructor
  · decide
  · set_option maxRecDepth 8000 in decide
